import Mathlib

/-!
Shallow embedding of the build-cache engine lifecycle subsystem of the
memospot/action-dagger repository (TypeScript), together with proofs of the
frozen claims about it.

The embedding follows the source files:
- src/src/cache.ts   (key strategy, archive path, setupDaggerCache, saveDaggerCache)
- src/src/engine.ts and its cancellation-aware revision (backupEngineVolume,
  restoreEngineVolume, startEngine, deleteEngineVolume)
- src/src/disk-space.ts (getAvailableDiskSpace)

External processes (docker, df, zstd, the remote cache store) are modelled by
explicit world records describing the outcome of each external step; the
orchestration functions are translated as pure functions from those worlds to
effect records. JavaScript strings are modelled by Lean String, and JS string
primitives (lastIndexOf, substring, endsWith, trim, parseInt) are given
faithful models below.
-/

namespace ActionDagger

/-! ### JavaScript string primitives -/

/-- Model of JS String.lastIndexOf for a one-character needle, over the list of
characters of the string: index of the last occurrence, none if absent
(JS returns -1 in that case; the callers in cache.ts test for -1, which the
Option models). -/
def lastIndexOfChar (c : Char) : List Char → Option Nat
  | [] => none
  | x :: xs =>
    match lastIndexOfChar c xs with
    | some i => some (i + 1)
    | none => if x = c then some 0 else none

/-- Model of JS String.endsWith: the needle is a suffix of the string. -/
def jsEndsWith (s needle : String) : Bool :=
  decide (needle.data <:+ s.data)

/-- Characters stripped by JS String.trim (the ASCII ones relevant to df/exec
output). -/
def isJsWhitespace (c : Char) : Bool :=
  c = ' ' || c = '\t' || c = '\n' || c = '\r'

/-- Model of JS String.trim: strip leading and trailing whitespace. -/
def jsTrim (s : String) : String :=
  String.mk (((s.data.dropWhile isJsWhitespace).reverse.dropWhile isJsWhitespace).reverse)

/-- Value of a digit run, most significant digit first. -/
def digitsToNat (ds : List Char) : Nat :=
  ds.foldl (fun acc c => acc * 10 + (c.toNat - 48)) 0

/-- Longest leading run of decimal digits; none when it is empty (parseInt
yields NaN in that case). -/
def parseLeadingDigits (cs : List Char) : Option Nat :=
  let ds := cs.takeWhile Char.isDigit
  if ds = [] then none else some (digitsToNat ds)

/-- Model of JS parseInt(s, 10): skip leading whitespace, accept an optional
sign, then read the longest run of decimal digits; none models NaN. -/
def jsParseInt (s : String) : Option Int :=
  match s.data.dropWhile isJsWhitespace with
  | '-' :: rest => (parseLeadingDigits rest).map (fun n => -(n : Int))
  | '+' :: rest => (parseLeadingDigits rest).map (fun n => (n : Int))
  | rest => (parseLeadingDigits rest).map (fun n => (n : Int))

/-- Model of path.join for a directory and a plain file name. -/
def pathJoin (dir name : String) : String :=
  dir ++ "/" ++ name

/-! ### Key strategy (src/src/cache.ts lines 130-173) -/

def DEFAULT_CACHE_PREFIX : String := "dagger-v1"

def CACHE_ARCHIVE_NAME_ZSTD : String := "dagger-engine-state.tar.zst"

def CACHE_ARCHIVE_NAME_TAR : String := "dagger-engine-state.tar"

def DAGGER_ENGINE_VOLUME : String := "dagger-engine-vol"

/-- Model of process.env.GITHUB_RUN_ID with the JS falsy default: the or-else
in cache.ts replaces an unset or empty variable by the string unknown. -/
def effectiveRunId (envRunId : String) : String :=
  if envRunId = "" then "unknown" else envRunId

/-- getCacheKey from src/src/cache.ts lines 152-160. A nonempty customKey is
returned verbatim (JS truthiness collapses undefined and the empty string);
otherwise the rolling key prefix-os-arch-runId is composed. -/
def getCacheKey (customKey platform arch envRunId : String) : String :=
  if customKey ≠ "" then customKey
  else
    DEFAULT_CACHE_PREFIX ++ "-" ++ platform ++ "-" ++ arch ++ "-" ++ effectiveRunId envRunId

/-- getRestoreKeys from src/src/cache.ts lines 167-173: the singleton list of
the key cut at its last hyphen (exclusive), empty when there is no hyphen. -/
def getRestoreKeys (key : String) : List String :=
  match lastIndexOfChar '-' key.data with
  | none => []
  | some i => [String.mk (key.data.take i)]

/-- Model of process.env.RUNNER_TEMP with its falsy default /tmp. -/
def effectiveTempDir (envRunnerTemp : String) : String :=
  if envRunnerTemp = "" then "/tmp" else envRunnerTemp

/-- getCacheArchivePath from src/src/cache.ts lines 140-145: the archive name
depends only on whether the compression level is zero. -/
def getCacheArchivePath (envRunnerTemp : String) (compressionLevel : Nat) : String :=
  pathJoin (effectiveTempDir envRunnerTemp)
    (if compressionLevel = 0 then CACHE_ARCHIVE_NAME_TAR else CACHE_ARCHIVE_NAME_ZSTD)

/-! ### DiskSpaceGuard (src/src/disk-space.ts lines 8-35)

The df invocation is modelled by its outcome: error when getExecOutput
rejects, ok with the captured stdout otherwise. The function catches every
rejection, so its model is total: totality is the never-raises property. -/

/-- getAvailableDiskSpace from src/src/disk-space.ts: trim stdout, split on
newlines, take the second line, trim it, reject empty, parseInt base 10,
reject NaN; every failure path returns 0. -/
def getAvailableDiskSpace (dfResult : Except String String) : Int :=
  match dfResult with
  | .error _ => 0
  | .ok stdout =>
    match ((jsTrim stdout).splitOn "\n")[1]? with
    | none => 0
    | some line =>
      let availableStr := jsTrim line
      if availableStr = "" then 0
      else
        match jsParseInt availableStr with
        | none => 0
        | some v => v

/-- Specification-level reading of the same df output: the parsed
available-byte count, none on execution failure or on any parse failure. -/
def parsedAvailableBytes (dfResult : Except String String) : Option Int :=
  match dfResult with
  | .error _ => none
  | .ok stdout => (((jsTrim stdout).splitOn "\n")[1]?).bind (fun line => jsParseInt (jsTrim line))

/-! ### Archiver backup (cancellation-aware backupEngineVolume)

The revision of engine.ts with the cancellation handler (the unnamed source
file part_008; src/src/engine.ts lines 43-114 is the same function without
the cancellation machinery). External behavior is a world record:
- volumeExists: docker volume inspect succeeds;
- zstdAvailable: which zstd succeeds;
- cancel: when an interrupt or termination signal is delivered, if ever;
- execFails: the transfer pipeline command rejects;
- execCreatesFile: destPath exists once the transfer command ends;
- initialFileExists: destPath existed before the call. -/

/-- Discrete timeline of signal delivery relative to the backup body. -/
inductive CancelTime
  | never
  | beforeStart
  | duringRun
deriving DecidableEq, Repr

inductive BackupError
  | volumeNotFound
  | compressorUnavailable
  | commandFailed
deriving DecidableEq, Repr

structure BackupWorld where
  volumeExists : Bool
  zstdAvailable : Bool
  cancel : CancelTime
  execFails : Bool
  execCreatesFile : Bool
  initialFileExists : Bool
deriving DecidableEq, Repr

structure BackupResult where
  compressorChecked : Bool
  transferStarted : Bool
  outcome : Except BackupError Unit
  cancelledObserved : Bool
  destExists : Bool
deriving Repr

/-- Shared tail of both compression branches: run the transfer command, map a
rejection under an observed cancellation to a normal return, and apply the
cleanup of the finally block (delete destPath when cancelled). The duringRun
signal is observed exactly when the transfer actually runs. -/
def runTransfer (w : BackupWorld) (checked : Bool) : BackupResult :=
  if w.cancel = .duringRun then
    -- the catch of the transfer, and the finally cleanup, both see isCancelled:
    -- a rejection is absorbed as a normal return and destPath is removed
    { compressorChecked := checked, transferStarted := true,
      outcome := .ok (), cancelledObserved := true, destExists := false }
  else if w.execFails = true then
    { compressorChecked := checked, transferStarted := true,
      outcome := .error .commandFailed, cancelledObserved := false,
      destExists := w.execCreatesFile }
  else
    { compressorChecked := checked, transferStarted := true,
      outcome := .ok (), cancelledObserved := false,
      destExists := w.execCreatesFile }

/-- backupEngineVolume with the cancellation handler. Control flow of the
source: check the volume (throw VolumeNotFound); first cancellation
checkpoint (return); at level 0 run the plain-tar pipeline; at a positive
level check zstd (throw CompressorUnavailable), second checkpoint, then run
the tar-zstd pipeline; the finally block removes the signal handlers and
deletes destPath when a cancellation was observed. -/
def backupEngineVolume (w : BackupWorld) (compressionLevel : Nat) : BackupResult :=
  if w.volumeExists = false then
    -- throw before any transfer; the finally cleanup still applies
    if w.cancel = .beforeStart then
      { compressorChecked := false, transferStarted := false,
        outcome := .error .volumeNotFound, cancelledObserved := true,
        destExists := false }
    else
      { compressorChecked := false, transferStarted := false,
        outcome := .error .volumeNotFound, cancelledObserved := false,
        destExists := w.initialFileExists }
  else if w.cancel = .beforeStart then
    -- checkpoint: return normally, cleanup deletes destPath
    { compressorChecked := false, transferStarted := false,
      outcome := .ok (), cancelledObserved := true, destExists := false }
  else if compressionLevel = 0 then
    runTransfer w false
  else if w.zstdAvailable = false then
    { compressorChecked := true, transferStarted := false,
      outcome := .error .compressorUnavailable, cancelledObserved := false,
      destExists := w.initialFileExists }
  else
    runTransfer w true

/-! ### CacheLifecycleManager Persist (saveDaggerCache, src/src/cache.ts lines 248-350)

World record for the external steps, in the order the source performs them:
- containerFound: findEngineContainer yields a container id;
- availableSpace: the value getAvailableDiskSpace resolved to;
- timerFires: the withTimeout race is won by the timer (only relevant when a
  positive timeout governs the backup);
- backupFails: the backup rejects (for a reason other than the timer);
- archiveExistsAfterBackup: fs.existsSync on the archive after the backup;
- saveOk: cache.saveCache resolves;
- initialArchiveExists: the archive file existed before the call.

The effects record captures the remote-store write (savedKey is some k
exactly when cache.saveCache was invoked, with the key it was given), the
volume deletion, and the archive file state after the finally cleanup. -/

def MIN_REQUIRED_SPACE : Int := 3 * 1024 * 1024 * 1024

structure SaveWorld where
  containerFound : Bool
  availableSpace : Int
  timerFires : Bool
  backupFails : Bool
  archiveExistsAfterBackup : Bool
  saveOk : Bool
  initialArchiveExists : Bool
deriving DecidableEq, Repr

structure SaveEffects where
  engineStopped : Bool
  backupInvoked : Bool
  savedKey : Option String
  volumeDeleted : Bool
  archiveExistsAtEnd : Bool
  timedOut : Bool
deriving DecidableEq, Repr

/-- saveDaggerCache. Control flow of the source: return when no container is
found (the archive path variable is still empty, so the finally cleanup
deletes nothing); stop the engine; compute the archive path; skip with a
soft-fail warning when the available space is positive and below
MIN_REQUIRED_SPACE; run the backup, governed by withTimeout when
timeoutMinutes is positive; a timeout rejection is caught as a non-fatal
skip; any other rejection is caught as a warning; on success, when the
archive file exists, upload it under getCacheKey and, only when that save
resolved, delete the engine volume; the finally block always deletes the
archive file when its path was set and it exists. -/
def saveDaggerCache (w : SaveWorld) (cacheKeyInput platform arch envRunId : String)
    (timeoutMinutes : Int) : SaveEffects :=
  if w.containerFound = false then
    { engineStopped := false, backupInvoked := false, savedKey := none,
      volumeDeleted := false, archiveExistsAtEnd := w.initialArchiveExists,
      timedOut := false }
  else if 0 < w.availableSpace ∧ w.availableSpace < MIN_REQUIRED_SPACE then
    { engineStopped := true, backupInvoked := false, savedKey := none,
      volumeDeleted := false, archiveExistsAtEnd := false, timedOut := false }
  else if 0 < timeoutMinutes ∧ w.timerFires = true then
    { engineStopped := true, backupInvoked := true, savedKey := none,
      volumeDeleted := false, archiveExistsAtEnd := false, timedOut := true }
  else if w.backupFails = true then
    { engineStopped := true, backupInvoked := true, savedKey := none,
      volumeDeleted := false, archiveExistsAtEnd := false, timedOut := false }
  else if w.archiveExistsAfterBackup = true then
    if w.saveOk = true then
      { engineStopped := true, backupInvoked := true,
        savedKey := some (getCacheKey cacheKeyInput platform arch envRunId),
        volumeDeleted := true, archiveExistsAtEnd := false, timedOut := false }
    else
      { engineStopped := true, backupInvoked := true,
        savedKey := some (getCacheKey cacheKeyInput platform arch envRunId),
        volumeDeleted := false, archiveExistsAtEnd := false, timedOut := false }
  else
    { engineStopped := true, backupInvoked := true, savedKey := none,
      volumeDeleted := false, archiveExistsAtEnd := false, timedOut := false }

/-! ### CacheLifecycleManager Restore (setupDaggerCache, src/src/cache.ts lines 178-243)

The restore phase is modelled as the trace of external operations it
performs, plus whether the function resolved normally. The outer try/catch
turns any rejection of the fetch or of the volume hydration into a warning;
the engine start then runs unconditionally in its own try/catch whose error
branch logs and does not rethrow. -/

inductive FetchOutcome
  | hit
  | miss
  | fetchThrows
deriving DecidableEq, Repr

structure SetupWorld where
  fetch : FetchOutcome
  volumeRestoreOk : Bool
  startOk : Bool
deriving DecidableEq, Repr

inductive SetupOp
  | restoreCacheCall
  | hydrateVolume
  | unlinkArchive
  | engineStart
  | exportRunnerHost
deriving DecidableEq, Repr

/-- setupDaggerCache, as the list of operations performed and a flag telling
whether the call resolved normally. -/
def setupDaggerCache (w : SetupWorld) : List SetupOp × Bool :=
  let tryBlock : List SetupOp :=
    match w.fetch with
    | .fetchThrows => [.restoreCacheCall]
    | .miss => [.restoreCacheCall]
    | .hit =>
      if w.volumeRestoreOk then [.restoreCacheCall, .hydrateVolume, .unlinkArchive]
      else [.restoreCacheCall, .hydrateVolume]
  let startBlock : List SetupOp :=
    if w.startOk then [.engineStart, .exportRunnerHost] else [.engineStart]
  (tryBlock ++ startBlock, true)

/-! ### Restore pipeline selection (restoreEngineVolume, src/src/engine.ts lines 122-143) -/

inductive RestorePipeline
  | zstdDecompress
  | plainTar
deriving DecidableEq, Repr

/-- Pipeline chosen by restoreEngineVolume: the zstd decompression pipe
exactly for paths ending in .tar.zst, the plain tar extraction otherwise. -/
def restorePipelineFor (archivePath : String) : RestorePipeline :=
  if jsEndsWith archivePath ".tar.zst" then .zstdDecompress else .plainTar

/-- Format of the archive written by backupEngineVolume at a given level:
plain tar at level 0, zstd framed tar otherwise. -/
inductive ArchiveFormat
  | plainTarFormat
  | zstdFormat
deriving DecidableEq, Repr

def backupFormat (compressionLevel : Nat) : ArchiveFormat :=
  if compressionLevel = 0 then .plainTarFormat else .zstdFormat

/-- Pipeline that correctly reads a format. -/
def matchingPipeline : ArchiveFormat → RestorePipeline
  | .plainTarFormat => .plainTar
  | .zstdFormat => .zstdDecompress

/-! ### Helper lemmas about the string primitives -/

theorem lastIndexOfChar_eq_none {c : Char} {l : List Char} (h : c ∉ l) :
    lastIndexOfChar c l = none := by
  induction l with
  | nil => rfl
  | cons x xs ih =>
    simp only [List.mem_cons, not_or] at h
    have hx : ¬x = c := fun hx => h.1 hx.symm
    simp [lastIndexOfChar, ih h.2, hx]

theorem lastIndexOfChar_append_cons {c : Char} (l₁ : List Char) {l₂ : List Char}
    (h : c ∉ l₂) : lastIndexOfChar c (l₁ ++ c :: l₂) = some l₁.length := by
  induction l₁ with
  | nil => simp [lastIndexOfChar, lastIndexOfChar_eq_none h]
  | cons x xs ih => simp [lastIndexOfChar, ih]

theorem string_data_inj {s t : String} (h : s.data = t.data) : s = t := by
  cases s; cases t; exact congrArg String.mk h

/-- Core computation of getRestoreKeys: on a string whose characters split as
l₁ then a hyphen then a hyphen-free l₂, the result keeps exactly l₁. -/
theorem getRestoreKeys_eq_of_data {k : String} {l₁ l₂ : List Char}
    (hdata : k.data = l₁ ++ '-' :: l₂) (h₂ : '-' ∉ l₂) :
    getRestoreKeys k = [String.mk l₁] := by
  unfold getRestoreKeys
  rw [hdata, lastIndexOfChar_append_cons l₁ h₂]
  simp [List.take_left]

theorem getRestoreKeys_eq_nil {k : String} (h : '-' ∉ k.data) :
    getRestoreKeys k = [] := by
  unfold getRestoreKeys
  rw [lastIndexOfChar_eq_none h]

theorem jsParseInt_empty : jsParseInt "" = none := rfl

/-! ### Claim theorems -/

/-- C5: for every key containing at least one hyphen (written uniquely as
a-b with b hyphen-free), getRestoreKeys returns exactly the one-element list
holding the key with its final hyphen-delimited segment, hyphen included,
removed; for a key without hyphen it returns the empty list; the result never
has more than one element. -/
theorem restore_keys_spec :
    (∀ (a b : String), '-' ∉ b.data →
      getRestoreKeys (a ++ "-" ++ b) = [a]) ∧
    (∀ (k : String), '-' ∉ k.data → getRestoreKeys k = []) ∧
    (∀ (k : String), (getRestoreKeys k).length ≤ 1) := by
  refine ⟨fun a b hb => ?_, fun k hk => getRestoreKeys_eq_nil hk, fun k => ?_⟩
  · have hdash : ("-" : String).data = ['-'] := rfl
    have hdata : (a ++ "-" ++ b).data = a.data ++ '-' :: b.data := by
      simp [String.data_append, hdash]
    rw [getRestoreKeys_eq_of_data hdata hb]
  · unfold getRestoreKeys
    cases lastIndexOfChar '-' k.data <;> simp

theorem restore_keys_spec_witness :
    '-' ∉ ("42" : String).data ∧
    getRestoreKeys ("dagger-v1-linux-x64" ++ "-" ++ "42") = ["dagger-v1-linux-x64"] :=
  ⟨by decide, restore_keys_spec.1 "dagger-v1-linux-x64" "42" (by decide)⟩

/-- C6 counterexample: the two job contexts differ only in the run-id
environment value (unset versus the literal string unknown), yet the derived
primary keys are equal, because the or-else default in getCacheKey maps both
to the same effective run id. This refutes the claim that any two contexts
differing only in run-id yield different primary keys. -/
theorem rolling_key_counterexample :
    ("" : String) ≠ "unknown" ∧
    getCacheKey "" "linux" "x64" "" = getCacheKey "" "linux" "x64" "unknown" :=
  ⟨by decide, rfl⟩

/-- C6 amended: for job contexts differing only in the run id, whenever the
effective run ids (after the or-else defaulting of an empty value to unknown)
are distinct and contain no hyphen, the derived primary keys differ while the
derived restore keys coincide. -/
theorem rolling_key_amended (p a r₁ r₂ : String)
    (hne : effectiveRunId r₁ ≠ effectiveRunId r₂)
    (h₁ : '-' ∉ (effectiveRunId r₁).data)
    (h₂ : '-' ∉ (effectiveRunId r₂).data) :
    getCacheKey "" p a r₁ ≠ getCacheKey "" p a r₂ ∧
    getRestoreKeys (getCacheKey "" p a r₁) = getRestoreKeys (getCacheKey "" p a r₂) := by
  have hdash : ("-" : String).data = ['-'] := rfl
  have hgk : ∀ r : String, (getCacheKey "" p a r).data =
      (DEFAULT_CACHE_PREFIX ++ "-" ++ p ++ "-" ++ a).data ++ '-' :: (effectiveRunId r).data := by
    intro r
    simp [getCacheKey, String.data_append, hdash, List.append_assoc]
  constructor
  · intro h
    have hdata := congrArg String.data h
    rw [hgk r₁, hgk r₂] at hdata
    have htail := List.append_cancel_left hdata
    have : (effectiveRunId r₁).data = (effectiveRunId r₂).data := by
      injection htail
    exact hne (string_data_inj this)
  · rw [getRestoreKeys_eq_of_data (hgk r₁) h₁, getRestoreKeys_eq_of_data (hgk r₂) h₂]

theorem rolling_key_amended_witness :
    getCacheKey "" "linux" "x64" "42" ≠ getCacheKey "" "linux" "x64" "43" ∧
    getRestoreKeys (getCacheKey "" "linux" "x64" "42") =
      getRestoreKeys (getCacheKey "" "linux" "x64" "43") :=
  rolling_key_amended "linux" "x64" "42" "43" (by decide) (by decide) (by decide)

/-- C8: getAvailableDiskSpace never raises (it is total on every df outcome)
and returns the parsed available-byte count of the df output when one exists,
and 0 on any execution failure or parse failure. -/
theorem available_bytes_soft_fail (r : Except String String) :
    getAvailableDiskSpace r = (parsedAvailableBytes r).getD 0 := by
  cases r with
  | error e => rfl
  | ok out =>
    simp only [getAvailableDiskSpace, parsedAvailableBytes]
    cases ((jsTrim out).splitOn "\n")[1]? with
    | none => rfl
    | some line =>
      dsimp only
      by_cases hemp : jsTrim line = ""
      · rw [if_pos hemp]
        simp [hemp, jsParseInt_empty]
      · rw [if_neg hemp]
        cases h2 : jsParseInt (jsTrim line) with
        | none => simp [h2]
        | some v => simp [h2]

theorem suffix_append_of_length_le {α : Type} {l₁ l₂ l₃ : List α}
    (h : l₁ <:+ l₂ ++ l₃) (hlen : l₁.length ≤ l₃.length) : l₁ <:+ l₃ := by
  induction l₂ with
  | nil => simpa using h
  | cons x xs ih =>
    rw [List.cons_append, List.suffix_cons_iff] at h
    cases h with
    | inl h =>
      exfalso
      have hl := congrArg List.length h
      simp [List.length_append] at hl
      omega
    | inr h => exact ih h

theorem jsEndsWith_pathJoin_of_suffix {name needle : String} (dir : String)
    (h : needle.data <:+ name.data) : jsEndsWith (pathJoin dir name) needle = true := by
  unfold jsEndsWith pathJoin
  rw [decide_eq_true_eq, String.data_append]
  exact h.trans (List.suffix_append _ _)

theorem jsEndsWith_pathJoin_of_short {name needle : String} (dir : String)
    (hlen : needle.data.length ≤ name.data.length)
    (h : ¬ needle.data <:+ name.data) : jsEndsWith (pathJoin dir name) needle = false := by
  unfold jsEndsWith pathJoin
  rw [decide_eq_false_iff_not, String.data_append]
  intro hsuf
  exact h (suffix_append_of_length_le hsuf hlen)

/-- C9: for every compression level, the archive path chosen for backup ends
in .tar.zst exactly when the level is positive (and ends in .tar at level 0),
and the volume restore selects the zstd decompression pipeline exactly for
paths ending in .tar.zst; hence an archive produced at any level is restored
through the pipeline matching its format, for every RUNNER_TEMP value. -/
theorem archive_format_roundtrip (envRunnerTemp : String) (L : Nat) :
    jsEndsWith (getCacheArchivePath envRunnerTemp L) ".tar.zst" = decide (0 < L) ∧
    jsEndsWith (getCacheArchivePath envRunnerTemp 0) ".tar" = true ∧
    restorePipelineFor (getCacheArchivePath envRunnerTemp L) =
      matchingPipeline (backupFormat L) := by
  have htar : jsEndsWith (getCacheArchivePath envRunnerTemp 0) ".tar" = true := by
    unfold getCacheArchivePath
    rw [if_pos rfl]
    exact jsEndsWith_pathJoin_of_suffix _ (by decide)
  refine ⟨?_, htar, ?_⟩
  · by_cases hL : L = 0
    · subst hL
      unfold getCacheArchivePath
      rw [if_pos rfl]
      rw [jsEndsWith_pathJoin_of_short _ (by decide) (by decide)]
      decide
    · unfold getCacheArchivePath
      rw [if_neg hL]
      rw [jsEndsWith_pathJoin_of_suffix _ (by decide)]
      have : 0 < L := Nat.pos_of_ne_zero hL
      simp [this]
  · unfold restorePipelineFor backupFormat
    by_cases hL : L = 0
    · subst hL
      unfold getCacheArchivePath
      rw [if_pos rfl, if_pos rfl]
      rw [jsEndsWith_pathJoin_of_short _ (by decide) (by decide)]
      rfl
    · unfold getCacheArchivePath
      rw [if_neg hL, if_neg hL]
      rw [jsEndsWith_pathJoin_of_suffix _ (by decide)]
      rfl

/-- C1 counterexample: a Persist invocation whose save key my-key-42 equals
the key the Restore phase of the same job restored from (the restoreCache
call of setupDaggerCache returned my-key-42), with the engine container
present, ample disk space, a successful backup and an existing archive.
saveDaggerCache never compares the save key with the restored key (no
restored-key marker is persisted anywhere in the source), so the remote
save IS invoked: savedKey is some my-key-42, not none, refuting the claim
that such a Persist performs zero remote-store writes. -/
theorem save_on_restored_key_counterexample :
    (saveDaggerCache ⟨true, 10 * 1024 * 1024 * 1024, false, false, true, true, false⟩
      "my-key-42" "linux" "x64" "7" 10).savedKey = some "my-key-42" := by
  decide

/-- C1 amended: Persist performs no restored-key comparison. Whatever key the
Restore phase restored from, the remote save is invoked with the derived key
whenever the engine container is found, the disk-space skip does not
trigger, and the backup neither times out nor fails and left an archive; the
remote store rejection of a duplicate key is then merely caught and logged. -/
theorem save_proceeds_regardless_of_restored_key (w : SaveWorld)
    (ck p a r restoredKey : String) (tm : Int)
    (hfound : w.containerFound = true)
    (hdisk : ¬(0 < w.availableSpace ∧ w.availableSpace < MIN_REQUIRED_SPACE))
    (htime : ¬(0 < tm ∧ w.timerFires = true))
    (hfail : w.backupFails = false)
    (hex : w.archiveExistsAfterBackup = true)
    (hkey : restoredKey = getCacheKey ck p a r) :
    (saveDaggerCache w ck p a r tm).savedKey = some (getCacheKey ck p a r) := by
  unfold saveDaggerCache
  rw [hfound]
  rw [if_neg (by simp), if_neg hdisk, if_neg htime, if_neg (by simp [hfail]), if_pos hex]
  cases hs : w.saveOk <;> simp [hs]

theorem save_proceeds_regardless_of_restored_key_witness :
    (saveDaggerCache ⟨true, 0, false, false, true, true, false⟩
      "k-1" "linux" "x64" "9" 0).savedKey = some (getCacheKey "k-1" "linux" "x64" "9") :=
  save_proceeds_regardless_of_restored_key ⟨true, 0, false, false, true, true, false⟩
    "k-1" "linux" "x64" "9" "k-1" 0 rfl (by decide) (by decide) rfl rfl rfl

/-- C2 counterexample: the disk-space guard reports 0 (unknown); with the
engine container present, a successful backup and an existing archive,
Persist does NOT skip: the guard condition in saveDaggerCache requires the
reported space to be positive, so 0 falls through, the backup is invoked and
the remote save performed. This refutes the half of the claim saying a 0
report results in skipping. -/
theorem disk_guard_zero_proceeds_counterexample :
    (saveDaggerCache ⟨true, 0, false, false, true, true, false⟩
      "" "linux" "x64" "7" 10).backupInvoked = true ∧
    (saveDaggerCache ⟨true, 0, false, false, true, true, false⟩
      "" "linux" "x64" "7" 10).savedKey ≠ none := by
  constructor
  · decide
  · decide

/-- C2 amended: only an actual available space that is positive and strictly
below the 3 GiB threshold makes Persist skip the backup and the remote save;
a report of 0 (unknown) does not trigger the disk-space skip, and Persist
proceeds to invoke the backup. -/
theorem disk_guard_skip_amended (w : SaveWorld) (ck p a r : String) (tm : Int) :
    (w.containerFound = true → 0 < w.availableSpace →
      w.availableSpace < MIN_REQUIRED_SPACE →
      (saveDaggerCache w ck p a r tm).backupInvoked = false ∧
      (saveDaggerCache w ck p a r tm).savedKey = none) ∧
    (w.containerFound = true → w.availableSpace = 0 →
      (saveDaggerCache w ck p a r tm).backupInvoked = true) := by
  constructor
  · intro hfound hpos hlt
    unfold saveDaggerCache
    rw [hfound]
    rw [if_neg (by simp), if_pos ⟨hpos, hlt⟩]
    exact ⟨rfl, rfl⟩
  · intro hfound hzero
    unfold saveDaggerCache
    rw [hfound]
    rw [if_neg (by simp), if_neg (by rw [hzero]; simp)]
    by_cases ht : 0 < tm ∧ w.timerFires = true
    · rw [if_pos ht]
    · rw [if_neg ht]
      by_cases hb : w.backupFails = true
      · rw [if_pos hb]
      · rw [if_neg hb]
        by_cases hx : w.archiveExistsAfterBackup = true
        · rw [if_pos hx]
          by_cases hsv : w.saveOk = true
          · rw [if_pos hsv]
          · rw [if_neg hsv]
        · rw [if_neg hx]

theorem disk_guard_skip_amended_witness :
    ((saveDaggerCache ⟨true, 1024, false, false, true, true, false⟩
        "" "linux" "x64" "7" 10).backupInvoked = false ∧
      (saveDaggerCache ⟨true, 1024, false, false, true, true, false⟩
        "" "linux" "x64" "7" 10).savedKey = none) ∧
    (saveDaggerCache ⟨true, 0, true, false, true, true, false⟩
      "" "linux" "x64" "7" 10).backupInvoked = true :=
  ⟨(disk_guard_skip_amended ⟨true, 1024, false, false, true, true, false⟩
      "" "linux" "x64" "7" 10).1 rfl (by decide) (by decide),
    (disk_guard_skip_amended ⟨true, 0, true, false, true, true, false⟩
      "" "linux" "x64" "7" 10).2 rfl rfl⟩

/-- C10: Persist deletes the engine volume exactly when the engine container
was found, the disk-space skip did not trigger, the backup neither timed out
nor failed, the archive file existed, and the remote-store save resolved; in
that case the save was invoked with the derived key. On every other path
(engine absent, disk-space skip, backup failure or timeout, archive missing,
save rejection) the volume deletion is never invoked. -/
theorem volume_deleted_iff (w : SaveWorld) (ck p a r : String) (tm : Int) :
    (saveDaggerCache w ck p a r tm).volumeDeleted = true ↔
      (w.containerFound = true ∧
        ¬(0 < w.availableSpace ∧ w.availableSpace < MIN_REQUIRED_SPACE) ∧
        ¬(0 < tm ∧ w.timerFires = true) ∧
        w.backupFails = false ∧
        w.archiveExistsAfterBackup = true ∧
        w.saveOk = true ∧
        (saveDaggerCache w ck p a r tm).savedKey = some (getCacheKey ck p a r)) := by
  unfold saveDaggerCache
  by_cases hfound : w.containerFound = false
  · rw [if_pos hfound]
    simp [hfound]
  · rw [if_neg hfound]
    have hfound2 : w.containerFound = true := by
      cases hc : w.containerFound
      · exact absurd hc hfound
      · rfl
    by_cases hdisk : 0 < w.availableSpace ∧ w.availableSpace < MIN_REQUIRED_SPACE
    · rw [if_pos hdisk]
      simp [hdisk]
    · rw [if_neg hdisk]
      by_cases ht : 0 < tm ∧ w.timerFires = true
      · rw [if_pos ht]
        simp [ht]
      · rw [if_neg ht]
        by_cases hb : w.backupFails = true
        · rw [if_pos hb]
          simp [hb]
        · rw [if_neg hb]
          have hb2 : w.backupFails = false := by
            cases hc : w.backupFails
            · rfl
            · exact absurd hc hb
          by_cases hx : w.archiveExistsAfterBackup = true
          · rw [if_pos hx]
            by_cases hsv : w.saveOk = true
            · rw [if_pos hsv]
              simp [hfound2, hdisk, ht, hb2, hx, hsv]
            · rw [if_neg hsv]
              simp [hsv]
          · rw [if_neg hx]
            simp [hx]

/-- C3: whenever a cancellation signal was observed by the backup, its
finally-equivalent cleanup removes the destination archive, so the path does
not exist afterwards; and whenever Persist caught a backup timeout, its own
finally cleanup removes the archive, so the path does not exist afterwards. -/
theorem cancelled_or_timedout_backup_removes_archive :
    (∀ (w : BackupWorld) (L : Nat),
      (backupEngineVolume w L).cancelledObserved = true →
      (backupEngineVolume w L).destExists = false) ∧
    (∀ (w : SaveWorld) (ck p a r : String) (tm : Int),
      (saveDaggerCache w ck p a r tm).timedOut = true →
      (saveDaggerCache w ck p a r tm).archiveExistsAtEnd = false) := by
  constructor
  · intro w L h
    unfold backupEngineVolume runTransfer at h ⊢
    split_ifs at h ⊢ <;> simp_all
  · intro w ck p a r tm h
    unfold saveDaggerCache at h ⊢
    split_ifs at h ⊢ <;> simp_all

theorem cancelled_or_timedout_backup_removes_archive_witness :
    (backupEngineVolume ⟨true, true, .duringRun, true, true, false⟩ 0).destExists = false ∧
    (saveDaggerCache ⟨true, 0, true, false, true, true, false⟩
      "" "linux" "x64" "7" 10).archiveExistsAtEnd = false :=
  ⟨cancelled_or_timedout_backup_removes_archive.1
      ⟨true, true, .duringRun, true, true, false⟩ 0 (by decide),
    cancelled_or_timedout_backup_removes_archive.2
      ⟨true, 0, true, false, true, true, false⟩ "" "linux" "x64" "7" 10 (by decide)⟩

/-- C4 counterexample: a Backup invocation at positive compression level 3
whose volume does not exist throws VolumeNotFound before ever reaching the
compressor-availability check, refuting the claim that a positive level
always invokes the check. -/
theorem compressor_check_skipped_counterexample :
    (backupEngineVolume ⟨false, true, .never, false, false, false⟩ 3).compressorChecked
        = false ∧
    (backupEngineVolume ⟨false, true, .never, false, false, false⟩ 3).outcome =
      .error .volumeNotFound :=
  ⟨rfl, rfl⟩

/-- C4 amended: at compression level 0 the compressor-availability check is
never invoked, on any path; at a positive level it is invoked provided the
volume-existence check passed and no cancellation was observed before the
checkpoint preceding it; and when the compressor is absent, Backup fails with
CompressorUnavailable without ever starting the transfer pipeline. -/
theorem compressor_check_amended :
    (∀ (w : BackupWorld), (backupEngineVolume w 0).compressorChecked = false) ∧
    (∀ (w : BackupWorld) (L : Nat), w.volumeExists = true → w.cancel ≠ .beforeStart →
      L ≠ 0 → (backupEngineVolume w L).compressorChecked = true) ∧
    (∀ (w : BackupWorld) (L : Nat), w.volumeExists = true → w.cancel ≠ .beforeStart →
      L ≠ 0 → w.zstdAvailable = false →
      (backupEngineVolume w L).outcome = .error .compressorUnavailable ∧
      (backupEngineVolume w L).transferStarted = false) := by
  refine ⟨fun w => ?_, fun w L hvol hcancel hL => ?_, fun w L hvol hcancel hL hz => ?_⟩
  · unfold backupEngineVolume runTransfer
    split_ifs <;> first | rfl | simp_all
  · unfold backupEngineVolume runTransfer
    rw [if_neg (by simp [hvol]), if_neg hcancel, if_neg hL]
    split_ifs <;> rfl
  · unfold backupEngineVolume
    rw [if_neg (by simp [hvol]), if_neg hcancel, if_neg hL, if_pos hz]
    exact ⟨rfl, rfl⟩

theorem compressor_check_amended_witness :
    (backupEngineVolume ⟨true, true, .never, false, true, false⟩ 3).compressorChecked
        = true ∧
    (backupEngineVolume ⟨true, false, .never, false, false, false⟩ 3).outcome =
      .error .compressorUnavailable ∧
    (backupEngineVolume ⟨true, false, .never, false, false, false⟩ 3).transferStarted
        = false :=
  ⟨compressor_check_amended.2.1 ⟨true, true, .never, false, true, false⟩ 3
      rfl (by decide) (by decide),
    (compressor_check_amended.2.2 ⟨true, false, .never, false, false, false⟩ 3
      rfl (by decide) (by decide) rfl).1,
    (compressor_check_amended.2.2 ⟨true, false, .never, false, false, false⟩ 3
      rfl (by decide) (by decide) rfl).2⟩

/-- C7: on every Restore outcome (remote fetch hit, miss, or rejection, with
the hydration succeeding or not), setupDaggerCache attempts the engine
start, and it resolves normally even when the engine start rejects: the
start failure is reported and never propagated. -/
theorem engine_start_unconditional (w : SetupWorld) :
    SetupOp.engineStart ∈ (setupDaggerCache w).1 ∧ (setupDaggerCache w).2 = true := by
  rcases w with ⟨f, vr, so⟩
  cases f <;> cases vr <;> cases so <;> decide

end ActionDagger
